import Mathlib

/-!
Shallow embedding of the simulation core of the `fps-battleground` repository:
vector/box geometry (as used via the three.js `Vector3`/`Box3` primitives),
the collision manager, player and enemy movement resolution, the enemy damage
model, the projectile-hit resolver, the multi-weapon firing model, the
network-player dead-reckoning puppet, the multiplayer state-send gate, and the
boss spawn/kill bookkeeping of the game loop.

Real-number quantities (positions, times in milliseconds, health, damage) are
modelled as rationals; a three.js `a.distanceTo(b) < t` comparison against a
nonnegative threshold `t` is embedded as `distSq a b < t * t`, which is
equivalent because both sides of the original comparison are nonnegative.
-/

namespace FPS

/-- 3-component vector over ℚ (embeds `THREE.Vector3`). -/
structure Vec3 where
  x : ℚ
  y : ℚ
  z : ℚ
deriving DecidableEq, Repr

def Vec3.add (a b : Vec3) : Vec3 := ⟨a.x + b.x, a.y + b.y, a.z + b.z⟩

def Vec3.sub (a b : Vec3) : Vec3 := ⟨a.x - b.x, a.y - b.y, a.z - b.z⟩

def Vec3.smul (c : ℚ) (a : Vec3) : Vec3 := ⟨c * a.x, c * a.y, c * a.z⟩

/-- Squared Euclidean distance; `distanceTo a b < t` (with `0 ≤ t`) is embedded
as `distSq a b < t * t`. -/
def distSq (a b : Vec3) : ℚ :=
  (a.x - b.x) * (a.x - b.x) + (a.y - b.y) * (a.y - b.y) + (a.z - b.z) * (a.z - b.z)

/-- Axis-aligned box (embeds `THREE.Box3`). -/
structure Box3 where
  min : Vec3
  max : Vec3
deriving DecidableEq, Repr

/-- `Box3.containsPoint`: closed containment on every axis. -/
def Box3.containsPoint (b : Box3) (p : Vec3) : Bool :=
  b.min.x ≤ p.x && p.x ≤ b.max.x &&
  b.min.y ≤ p.y && p.y ≤ b.max.y &&
  b.min.z ≤ p.z && p.z ≤ b.max.z

/-- `Box3.expandByScalar s`: grow the box by `s` on every side. -/
def Box3.expandByScalar (b : Box3) (s : ℚ) : Box3 :=
  ⟨⟨b.min.x - s, b.min.y - s, b.min.z - s⟩, ⟨b.max.x + s, b.max.y + s, b.max.z + s⟩⟩

/-- `Box3.intersectsBox`: overlap (closed) on all three axes. -/
def Box3.intersectsBox (a b : Box3) : Bool :=
  a.min.x ≤ b.max.x && b.min.x ≤ a.max.x &&
  a.min.y ≤ b.max.y && b.min.y ≤ a.max.y &&
  a.min.z ≤ b.max.z && b.min.z ≤ a.max.z

/-- `Box3.clampPoint`: componentwise clamp of `p` into the box. -/
def Box3.clampPoint (b : Box3) (p : Vec3) : Vec3 :=
  ⟨Min.min (Max.max p.x b.min.x) b.max.x,
   Min.min (Max.max p.y b.min.y) b.max.y,
   Min.min (Max.max p.z b.min.z) b.max.z⟩

/-- `Box3.setFromCenterAndSize`: box of the given size centred at `c`. -/
def Box3.fromCenterAndSize (c size : Vec3) : Box3 :=
  ⟨⟨c.x - size.x / 2, c.y - size.y / 2, c.z - size.z / 2⟩,
   ⟨c.x + size.x / 2, c.y + size.y / 2, c.z + size.z / 2⟩⟩

/-- Hull of two boxes (`Box3.union`), used to accumulate a mesh bounding box. -/
def Box3.unionBox (a b : Box3) : Box3 :=
  ⟨⟨Min.min a.min.x b.min.x, Min.min a.min.y b.min.y, Min.min a.min.z b.min.z⟩,
   ⟨Max.max a.max.x b.max.x, Max.max a.max.y b.max.y, Max.max a.max.z b.max.z⟩⟩

/-- Scale a box about the origin by a positive factor `s` (the effect of
`mesh.scale.setScalar s` on child-geometry coordinates). -/
def Box3.scaleBox (s : ℚ) (b : Box3) : Box3 :=
  ⟨⟨s * b.min.x, s * b.min.y, s * b.min.z⟩, ⟨s * b.max.x, s * b.max.y, s * b.max.z⟩⟩

/-- Translate a box by `v` (the effect of the mesh group position). -/
def Box3.translateBox (v : Vec3) (b : Box3) : Box3 :=
  ⟨b.min.add v, b.max.add v⟩

/-! ### CollisionManager (src/src/utils/CollisionManager.ts)

`checkPlayerCollision` tests a sphere of radius `playerRadius = 0.5` at
`position + movement` against every non-ground static bounding box;
`sphereIntersectsBox` clamps the sphere centre into the box and compares the
squared distance with the squared radius.  The collider list below models the
non-ground static objects (`obj.type === 'ground'` entries are skipped by the
source loop and are therefore not part of the modelled list). -/

def playerRadius : ℚ := 1 / 2

/-- `CollisionManager.sphereIntersectsBox` for a sphere of centre `c`, radius `r`. -/
def sphereIntersectsBox (c : Vec3) (r : ℚ) (box : Box3) : Bool :=
  distSq (box.clampPoint c) c ≤ r * r

/-- `CollisionManager.checkPlayerCollision`: true iff the player sphere at
`position + movement` intersects some collider. -/
def checkPlayerCollision (position movement : Vec3) (colliders : List Box3) : Bool :=
  let newPosition := position.add movement
  colliders.any (fun box => sphereIntersectsBox newPosition playerRadius box)

/-! ### Player horizontal movement resolution (src/src/entities/Player.ts, update)

Lines 119-136: the full horizontal movement is tested once against the collider
set; if it collides, neither the X nor the Z component is applied.  Afterwards
both coordinates are clamped to the symmetric world bound `140`. -/

def worldBound : ℚ := 140

def clampToBounds (v : ℚ) : ℚ := max (-worldBound) (min worldBound v)

/-- Resolved horizontal position of `Player.update`: `(x, z)` after the
all-or-nothing collision gate and the world-bound clamp. -/
def playerResolveHorizontal (position : Vec3) (horizontalMovement : Vec3)
    (colliders : List Box3) : ℚ × ℚ :=
  let moved :=
    if checkPlayerCollision position horizontalMovement colliders then
      (position.x, position.z)
    else
      (position.x + horizontalMovement.x, position.z + horizontalMovement.z)
  (clampToBounds moved.1, clampToBounds moved.2)

/-! ### Enemy (src/src/entities/Enemy.ts)

Stat configuration, the damage model (`takeDamage`), the head anchor
(`getHeadPosition`), the mesh bounding box (`getBoundingBox` =
`Box3.setFromObject(mesh)`), and the per-frame chase movement with axis slide
(`update`, lines 363-426).  Cosmetic fields of the config (color) are omitted.
-/

inductive EnemyType where
  | rifle
  | smg
  | heavy
  | boss
deriving DecidableEq, Repr

structure EnemyConfig where
  health : ℚ
  speed : ℚ
  damage : ℚ
  attackRate : ℚ
  scale : ℚ
deriving DecidableEq, Repr

def ENEMY_CONFIGS : EnemyType → EnemyConfig
  | .rifle => ⟨80, 5/2, 15, 4/5, 1⟩
  | .smg => ⟨60, 5, 8, 2, 9/10⟩
  | .heavy => ⟨200, 3/2, 25, 1/2, 13/10⟩
  | .boss => ⟨1000, 3, 40, 3/2, 5/2⟩

structure Enemy where
  etype : EnemyType
  position : Vec3
  health : ℚ
  maxHealth : ℚ
  isHit : Bool
  hitTimer : ℚ
  isDying : Bool
deriving DecidableEq, Repr

/-- Enemy constructor: spawns at `position` with the full configured health. -/
def mkEnemy (etype : EnemyType) (position : Vec3) : Enemy :=
  { etype := etype, position := position, health := (ENEMY_CONFIGS etype).health,
    maxHealth := (ENEMY_CONFIGS etype).health, isHit := false, hitTimer := 0,
    isDying := false }

/-- `Enemy.takeDamage`: headshots double the damage; health is decremented with
no lower clamp; the hit-stagger flag/timer are set; `isDying` becomes true when
the resulting health is ≤ 0 (and is never reset). -/
def Enemy.takeDamage (e : Enemy) (amount : ℚ) (isHeadshot : Bool) : Enemy :=
  let finalDamage := if isHeadshot then amount * 2 else amount
  let newHealth := e.health - finalDamage
  { e with
    health := newHealth
    isHit := true
    hitTimer := 1/5
    isDying := e.isDying || decide (newHealth ≤ 0) }

/-- `Enemy.isDead`: health ≤ 0. -/
def Enemy.isDead (e : Enemy) : Bool := e.health ≤ 0

/-- Local y-coordinate of the head mesh centre (`head.position.y` in
`createMesh` / `createBossMesh`). -/
def headLocalY : EnemyType → ℚ
  | .boss => 5/2
  | _ => 17/10

/-- `Enemy.getHeadPosition`: world position of the `head` child, i.e. the group
position plus the group-scaled local head offset (the head sits on the group's
vertical axis, so yaw rotation does not move it). -/
def Enemy.getHeadPosition (e : Enemy) : Vec3 :=
  e.position.add ⟨0, (ENEMY_CONFIGS e.etype).scale * headLocalY e.etype, 0⟩

/-- Axis-aligned bounds of the principal parts of the chibi enemy mesh
(`createMesh`), in mesh-local coordinates of the upright pose: torso, head,
arms, legs, eye pupils, weapon and health bar.  Rotation-susceptible parts
(the z-tilted arms) are given rotation-safe enclosing boxes; small ornaments
(blush, eye whites, eye shines, smile) lie inside the hull of these parts and
do not affect the mesh bounding box. -/
def chibiParts : List Box3 :=
  [⟨⟨-1/2, 1/5, -9/20⟩, ⟨1/2, 7/5, 9/20⟩⟩,
   ⟨⟨-9/20, 5/4, -9/20⟩, ⟨9/20, 43/20, 9/20⟩⟩,
   ⟨⟨-159/200, 121/200, -49/200⟩, ⟨159/200, 219/200, 49/200⟩⟩,
   ⟨⟨-17/50, -1/25, -7/50⟩, ⟨17/50, 11/25, 7/50⟩⟩,
   ⟨⟨-21/100, 169/100, 9/25⟩, ⟨21/100, 181/100, 12/25⟩⟩,
   ⟨⟨23/50, 21/25, 0⟩, ⟨27/50, 24/25, 17/20⟩⟩,
   ⟨⟨-2/5, 117/50, 0⟩, ⟨2/5, 123/50, 1/100⟩⟩]

/-- Axis-aligned bounds of the parts of the boss mesh (`createBossMesh`), in
mesh-local coordinates: torso, head, eyes, shoulder pads, arms, legs, mini-gun
and health bar. -/
def bossParts : List Box3 :=
  [⟨⟨-9/20, 9/10, -3/10⟩, ⟨9/20, 21/10, 3/10⟩⟩,
   ⟨⟨-1/4, 9/4, -1/4⟩, ⟨1/4, 11/4, 1/4⟩⟩,
   ⟨⟨-23/100, 121/50, 9/50⟩, ⟨23/100, 129/50, 17/50⟩⟩,
   ⟨⟨-3/4, 19/10, -1/5⟩, ⟨3/4, 23/10, 1/5⟩⟩,
   ⟨⟨-9/10, 7/10, -1/5⟩, ⟨9/10, 19/10, 1/5⟩⟩,
   ⟨⟨-12/25, -2/25, -9/50⟩, ⟨12/25, 27/25, 9/50⟩⟩,
   ⟨⟨61/100, 111/100, -1/5⟩, ⟨99/100, 149/100, 1⟩⟩,
   ⟨⟨-1, 137/40, 0⟩, ⟨1, 143/40, 1/100⟩⟩]

def enemyParts : EnemyType → List Box3
  | .boss => bossParts
  | _ => chibiParts

/-- Hull of the local part boxes of the enemy mesh. -/
def localMeshBBox (t : EnemyType) : Box3 :=
  match enemyParts t with
  | [] => ⟨⟨0, 0, 0⟩, ⟨0, 0, 0⟩⟩
  | b :: bs => bs.foldl Box3.unionBox b

/-- `Enemy.getBoundingBox` (`Box3.setFromObject(mesh)`): the local mesh hull
scaled by the group scale and translated to the enemy position. -/
def Enemy.getBoundingBox (e : Enemy) : Box3 :=
  Box3.translateBox e.position (Box3.scaleBox (ENEMY_CONFIGS e.etype).scale (localMeshBBox e.etype))

/-- `CollisionManager.checkProjectileHit`: the enemy bounding box is expanded
by `0.1` and tested for containment of the projectile position. -/
def checkProjectileHit (projectilePos : Vec3) (e : Enemy) : Bool :=
  ((e.getBoundingBox).expandByScalar (1/10)).containsPoint projectilePos

/-- Headshot threshold of `Game.updateProjectiles` (line 851):
`projectilePos.distanceTo(headPos) < 0.4`. -/
def isHeadshotAt (projectilePos : Vec3) (e : Enemy) : Bool :=
  distSq projectilePos (e.getHeadPosition) < (2/5) * (2/5)

/-- Local y-coordinate of the torso mesh centre (`body.position.y` in
`createMesh`, `torso.position.y` in `createBossMesh`). -/
def torsoLocalY : EnemyType → ℚ
  | .boss => 3/2
  | _ => 4/5

/-- World position of the centre of the enemy's torso: a body-hit point that
is far from the head anchor. -/
def Enemy.torsoCenter (e : Enemy) : Vec3 :=
  e.position.add ⟨0, (ENEMY_CONFIGS e.etype).scale * torsoLocalY e.etype, 0⟩

/-- One projectile-against-one-enemy resolution step of
`Game.updateProjectiles` (lines 848-856): classify the headshot, then apply
damage only if the body-hit test passes.  Returns the damaged enemy together
with the headshot flag, or `none` when no hit registers. -/
def resolveHit (projectilePos : Vec3) (damage : ℚ) (e : Enemy) : Option (Enemy × Bool) :=
  let isHeadshot := isHeadshotAt projectilePos e
  if checkProjectileHit projectilePos e then
    some (e.takeDamage damage isHeadshot, isHeadshot)
  else
    none

/-- Effect of a registered projectile hit on the active enemy list
(`Game.updateProjectiles`, lines 854-883): the enemy at index `j` takes the
damage; if its health drops to ≤ 0 it is destroyed and spliced out of the list
at once, otherwise it stays in place. -/
def applyProjectileHit (enemies : List Enemy) (j : ℕ) (damage : ℚ)
    (isHeadshot : Bool) : List Enemy :=
  match enemies.get? j with
  | none => enemies
  | some e =>
    let e' := e.takeDamage damage isHeadshot
    if e'.isDead then enemies.eraseIdx j else enemies.set j e'

/-- Horizontal chase movement of `Enemy.update` (lines 363-426): try the full
displacement, then the X component only, then the Z component only, each
against the whole collider set with a `(1, 2, 1)` test box centred at the
candidate position raised by 1. -/
def enemyTestBlocked (center : Vec3) (colliders : List Box3) : Bool :=
  colliders.any (fun col => (Box3.fromCenterAndSize center ⟨1, 2, 1⟩).intersectsBox col)

def enemyMoveStep (pos : Vec3) (dir : Vec3) (moveSpeed delta : ℚ)
    (colliders : List Box3) : ℚ × ℚ :=
  let newX := pos.x + dir.x * moveSpeed * delta
  let newZ := pos.z + dir.z * moveSpeed * delta
  if !enemyTestBlocked ⟨newX, pos.y + 1, newZ⟩ colliders then
    (newX, newZ)
  else if !enemyTestBlocked ⟨newX, pos.y + 1, pos.z⟩ colliders then
    (newX, pos.z)
  else if !enemyTestBlocked ⟨pos.x, pos.y + 1, newZ⟩ colliders then
    (pos.x, newZ)
  else
    (pos.x, pos.z)

/-! ### Player health (src/src/entities/Player.ts, takeDamage/heal) -/

/-- `Player.takeDamage`: clamps at 0 from below. -/
def playerTakeDamage (health amount : ℚ) : ℚ := Max.max 0 (health - amount)

/-- `Player.heal`: clamps at the maximum of 100 from above. -/
def playerHeal (health amount : ℚ) : ℚ := Min.min 100 (health + amount)

/-! ### MultiWeapon (src/unnamed part holding weapons/MultiWeapon.ts)

Weapon configurations, the fire-rate/ammo gate (`canShoot`), shooting
(`shoot`), weapon switching (`switchWeapon`), reload start (`reload`) and
reload completion (`finishReload`).  Times are wall-clock milliseconds
(`performance.now()`); cosmetic fields (name, colors, FOV, spread magnitudes,
projectile speed) that do not feed the claims are kept only where the control
flow reads them. -/

inductive WeaponType where
  | rifle
  | shotgun
  | sniper
  | smg
deriving DecidableEq, Repr

structure WeaponConfig where
  damage : ℚ
  fireRate : ℚ
  maxAmmo : ℤ
  reserveAmmo : ℤ
  reloadTime : ℚ
  recoil : ℚ
  pelletCount : ℕ
deriving DecidableEq, Repr

def WEAPON_CONFIGS : WeaponType → WeaponConfig
  | .rifle => ⟨25, 10, 30, 120, 3/2, 1, 1⟩
  | .shotgun => ⟨15, 3/2, 8, 32, 5/2, 3, 8⟩
  | .sniper => ⟨100, 4/5, 5, 20, 2, 4, 1⟩
  | .smg => ⟨18, 15, 40, 160, 6/5, 7/10, 1⟩

structure MultiWeapon where
  currentWeaponType : WeaponType
  currentAmmo : ℤ
  reserveAmmo : ℤ
  lastShotTime : ℚ
  isReloading : Bool
  reloadTimer : ℚ
  recoilAmount : ℚ
  isAiming : Bool
deriving DecidableEq, Repr

/-- `MultiWeapon` constructor state: rifle selected, full configured ammo. -/
def mkMultiWeapon : MultiWeapon :=
  { currentWeaponType := .rifle
    currentAmmo := (WEAPON_CONFIGS .rifle).maxAmmo
    reserveAmmo := (WEAPON_CONFIGS .rifle).reserveAmmo
    lastShotTime := 0
    isReloading := false
    reloadTimer := 0
    recoilAmount := 0
    isAiming := false }

/-- `MultiWeapon.canShoot` at wall-clock millisecond time `now`: not reloading,
ammo left, and at least `1000 / fireRate` ms since the last accepted shot. -/
def MultiWeapon.canShoot (w : MultiWeapon) (now : ℚ) : Bool :=
  let config := WEAPON_CONFIGS w.currentWeaponType
  let timeSinceLastShot := now - w.lastShotTime
  let minTimeBetweenShots := 1000 / config.fireRate
  !w.isReloading && 0 < w.currentAmmo && minTimeBetweenShots ≤ timeSinceLastShot

/-- `MultiWeapon.reload`: no-op while reloading, with a full magazine, or with
an empty reserve; otherwise starts the reload timer. -/
def MultiWeapon.reload (w : MultiWeapon) : MultiWeapon :=
  let config := WEAPON_CONFIGS w.currentWeaponType
  if w.isReloading || w.currentAmmo = config.maxAmmo || w.reserveAmmo = 0 then w
  else { w with isReloading := true, reloadTimer := config.reloadTime }

/-- `MultiWeapon.finishReload` (run by `update` when the reload timer
expires): transfer `min(maxAmmo - currentAmmo, reserveAmmo)` rounds from the
reserve into the magazine. -/
def MultiWeapon.finishReload (w : MultiWeapon) : MultiWeapon :=
  let config := WEAPON_CONFIGS w.currentWeaponType
  let ammoNeeded := config.maxAmmo - w.currentAmmo
  let ammoToAdd := Min.min ammoNeeded w.reserveAmmo
  { w with
    currentAmmo := w.currentAmmo + ammoToAdd
    reserveAmmo := w.reserveAmmo - ammoToAdd
    isReloading := false }

/-- `MultiWeapon.shoot` at time `now`: when `canShoot` fails it returns the
state unchanged and zero projectiles; otherwise it stamps the shot time,
decrements the magazine by one (regardless of pellet count), applies recoil,
spawns `pelletCount` projectiles, and auto-reloads on an emptied magazine with
a nonempty reserve.  The result is the new state and the number of spawned
projectiles. -/
def MultiWeapon.shoot (w : MultiWeapon) (now : ℚ) : MultiWeapon × ℕ :=
  if !w.canShoot now then (w, 0)
  else
    let config := WEAPON_CONFIGS w.currentWeaponType
    let w1 := { w with
      lastShotTime := now
      currentAmmo := w.currentAmmo - 1
      recoilAmount := if w.isAiming then config.recoil * (1/2) else config.recoil }
    let w2 := if w1.currentAmmo = 0 && 0 < w1.reserveAmmo then w1.reload else w1
    (w2, config.pelletCount)

/-- `MultiWeapon.switchWeapon`: ignored for the current type or while
reloading; otherwise selects the type and resets magazine and reserve to the
full configured values. -/
def MultiWeapon.switchWeapon (w : MultiWeapon) (t : WeaponType) : MultiWeapon :=
  if w.currentWeaponType = t || w.isReloading then w
  else
    let config := WEAPON_CONFIGS t
    { w with
      currentWeaponType := t
      currentAmmo := config.maxAmmo
      reserveAmmo := config.reserveAmmo
      isReloading := false
      recoilAmount := 0 }

/-- A scripted sequence of fire requests at the given wall-clock times:
each request runs `shoot`; the result is the final weapon state and the number
of accepted shots (requests that spawned projectiles). -/
def runFireScript (w : MultiWeapon) (times : List ℚ) : MultiWeapon × ℕ :=
  times.foldl
    (fun acc t =>
      let r := acc.1.shoot t
      (r.1, acc.2 + (if r.2 ≠ 0 then 1 else 0)))
    (w, 0)

/-! ### NetworkPlayer dead reckoning (src/src/entities/PowerUp.ts, NetworkPlayer)

`setTargetState` derives a velocity estimate in units per second from the
position delta between the two most recent snapshots and the wall-clock
millisecond interval between their receipts; `update` computes the predicted
position `targetPosition + velocity * frameDelta` (frameDelta in seconds)
before the interpolation blend. -/

structure NetworkPlayer where
  targetPosition : Vec3
  previousPosition : Vec3
  velocity : Vec3
  lastUpdateTime : ℚ
  updateInterval : ℚ
deriving DecidableEq, Repr

/-- `NetworkPlayer` initial state (all fields zeroed by the constructor). -/
def mkNetworkPlayer : NetworkPlayer :=
  { targetPosition := ⟨0, 0, 0⟩, previousPosition := ⟨0, 0, 0⟩,
    velocity := ⟨0, 0, 0⟩, lastUpdateTime := 0, updateInterval := 0 }

/-- `NetworkPlayer.setTargetState` at wall-clock millisecond time `now`:
derive the velocity estimate from the delta to the previous target and the
receipt interval, then install the new target. -/
def NetworkPlayer.setTargetState (np : NetworkPlayer) (position : Vec3)
    (now : ℚ) : NetworkPlayer :=
  let np1 :=
    if 0 < np.lastUpdateTime then
      let interval := now - np.lastUpdateTime
      if 0 < interval then
        { np with
          updateInterval := interval
          velocity := Vec3.smul (1000 / interval) (position.sub np.targetPosition) }
      else { np with updateInterval := interval }
    else np
  { np1 with
    previousPosition := np1.targetPosition
    targetPosition := position
    lastUpdateTime := now }

/-- The extrapolated position computed at the top of `NetworkPlayer.update`
(before the interpolation lerp), for a render frame of `delta` seconds. -/
def NetworkPlayer.predictedPosition (np : NetworkPlayer) (delta : ℚ) : Vec3 :=
  np.targetPosition.add (Vec3.smul delta np.velocity)

/-! ### Multiplayer state-send gate (src/src/multiplayer/MultiplayerManager.ts)

`sendState` sends the snapshot only when `hasStateChanged` reports a
significant change: a position delta above `0.05` on some axis, a rotation
delta above `0.02`, or a changed health or shooting flag (each compared with
the last sent state). -/

structure PlayerState where
  x : ℚ
  y : ℚ
  z : ℚ
  r : ℚ
  h : ℤ
  s : ℤ
deriving DecidableEq, Repr

structure MPManager where
  isConnected : Bool
  lastSentState : Option PlayerState
  lastX : ℚ
  lastY : ℚ
  lastZ : ℚ
  lastR : ℚ
deriving DecidableEq, Repr

/-- `MultiplayerManager.hasStateChanged`: threshold-based change detection. -/
def hasStateChanged (m : MPManager) (state : PlayerState) : Bool :=
  let posThreshold : ℚ := 1/20
  let rotThreshold : ℚ := 1/50
  let posChanged :=
    posThreshold < |state.x - m.lastX| ||
    posThreshold < |state.y - m.lastY| ||
    posThreshold < |state.z - m.lastZ|
  let rotChanged := rotThreshold < |state.r - m.lastR|
  let healthChanged :=
    match m.lastSentState with
    | none => true
    | some prev => state.h ≠ prev.h
  let shootingChanged :=
    match m.lastSentState with
    | none => true
    | some prev => state.s ≠ prev.s
  posChanged || rotChanged || healthChanged || shootingChanged

/-- `MultiplayerManager.sendState`: returns whether a state message was sent
over the connection together with the updated manager state. -/
def sendState (m : MPManager) (state : PlayerState) : Bool × MPManager :=
  if !m.isConnected then (false, m)
  else if hasStateChanged m state then
    (true,
     { m with
       lastSentState := some state
       lastX := state.x
       lastY := state.y
       lastZ := state.z
       lastR := state.r })
  else (false, m)

/-! ### Boss spawn/kill bookkeeping (src/src/game/Game.ts)

`spawnBoss` (lines 360-383) is guarded by the `bossSpawned` flag; the
projectile kill handler of `updateProjectiles` (lines 862-912) increments the
kill counter, on a boss kill clears `bossSpawned` and advances the wave
counter, removes the killed enemy, and schedules a respawn whose callback
spawns a fresh non-boss enemy and calls `spawnBoss` exactly when the kill
counter is a positive multiple of 10 and no boss is flagged alive.  The state
below abstracts the enemy list to the counts of live regular and boss
enemies; steps are the projectile kill events and the firing of a pending
respawn callback. -/

structure BossGame where
  kills : ℕ
  bossSpawned : Bool
  regularCount : ℕ
  bossCount : ℕ
  waveNumber : ℕ
  pendingRespawns : ℕ
deriving DecidableEq, Repr

/-- Initial state: wave 1, no kills, no boss, the initial wave of 9 regular
enemies (`8 + floor(waveNumber * 1.5)` at wave 1). -/
def initBossGame : BossGame :=
  { kills := 0, bossSpawned := false, regularCount := 9, bossCount := 0,
    waveNumber := 1, pendingRespawns := 0 }

/-- `Game.spawnBoss`: returns unchanged when a boss is already flagged alive;
otherwise flags the boss and adds it to the enemy set. -/
def spawnBoss (g : BossGame) : BossGame :=
  if g.bossSpawned then g
  else { g with bossSpawned := true, bossCount := g.bossCount + 1 }

/-- Projectile kill of a regular enemy: score/kill bookkeeping, removal, and a
scheduled respawn. -/
def killRegularUpd (g : BossGame) : BossGame :=
  { g with
    kills := g.kills + 1
    regularCount := g.regularCount - 1
    pendingRespawns := g.pendingRespawns + 1 }

/-- Projectile kill of the boss: additionally clears the boss-alive flag and
advances the wave counter. -/
def killBossUpd (g : BossGame) : BossGame :=
  { g with
    kills := g.kills + 1
    bossCount := g.bossCount - 1
    bossSpawned := false
    waveNumber := g.waveNumber + 1
    pendingRespawns := g.pendingRespawns + 1 }

/-- Firing of one pending respawn callback: spawn a fresh non-boss enemy, then
spawn the boss iff the kill counter is a positive multiple of 10 and no boss
is flagged alive. -/
def respawnUpd (g : BossGame) : BossGame :=
  let g1 := { g with
    regularCount := g.regularCount + 1
    pendingRespawns := g.pendingRespawns - 1 }
  if 0 < g.kills ∧ g.kills % 10 = 0 ∧ g.bossSpawned = false then spawnBoss g1 else g1

/-- Event steps of the boss bookkeeping. -/
inductive BossStep : BossGame → BossGame → Prop where
  | killRegular (g : BossGame) (h : 0 < g.regularCount) : BossStep g (killRegularUpd g)
  | killBoss (g : BossGame) (h : 0 < g.bossCount) : BossStep g (killBossUpd g)
  | respawnFire (g : BossGame) (h : 0 < g.pendingRespawns) : BossStep g (respawnUpd g)

/-- States reachable from the initial game state through kill/respawn events. -/
inductive BossReachable : BossGame → Prop where
  | init : BossReachable initBossGame
  | step {g g' : BossGame} (hg : BossReachable g) (hs : BossStep g g') : BossReachable g'

/-! ## Theorems -/

/-- From a bound on the square, a symmetric strict bound on the value. -/
lemma sq_lt_bound {d t : ℚ} (ht : 0 < t) (h : d * d < t * t) : -t < d ∧ d < t := by
  constructor <;> nlinarith

/-- Componentwise strict bounds from a squared-distance bound. -/
lemma distSq_component_bounds {a b : Vec3} {t : ℚ} (ht : 0 < t)
    (h : distSq a b < t * t) :
    (-t < a.x - b.x ∧ a.x - b.x < t) ∧ (-t < a.y - b.y ∧ a.y - b.y < t) ∧
    (-t < a.z - b.z ∧ a.z - b.z < t) := by
  unfold distSq at h
  refine ⟨sq_lt_bound ht ?_, sq_lt_bound ht ?_, sq_lt_bound ht ?_⟩ <;> nlinarith [sq_nonneg (a.x - b.x), sq_nonneg (a.y - b.y), sq_nonneg (a.z - b.z)]

/-- C1 counterexample: the claim says damage application never drives an
actor's health below 0, but `Enemy.takeDamage` does not clamp: a rifle enemy
(80 health) taking a single 100-damage body hit ends at health −20. -/
theorem c1_counterexample :
    ((mkEnemy .rifle ⟨0, 0, 0⟩).takeDamage 100 false).health = -20 ∧
    ((mkEnemy .rifle ⟨0, 0, 0⟩).takeDamage 100 false).health < 0 := by
  norm_num [mkEnemy, ENEMY_CONFIGS, Enemy.takeDamage]

/-- C1 (amended): the player's health is clamped to [0, 100] by
`Player.takeDamage`; an enemy's health is decremented without a lower clamp
(it may become negative), never increases under damage, and whenever it drops
to ≤ 0 the enemy is marked DYING. -/
theorem c1_health_clamping (h a amount : ℚ) (e : Enemy) (isHeadshot : Bool)
    (ha : 0 ≤ a) (hh : h ≤ 100) (hamount : 0 ≤ amount) :
    0 ≤ playerTakeDamage h a ∧ playerTakeDamage h a ≤ 100 ∧
    (e.takeDamage amount isHeadshot).health ≤ e.health ∧
    ((e.takeDamage amount isHeadshot).health ≤ 0 →
      (e.takeDamage amount isHeadshot).isDying = true) := by
  refine ⟨le_max_left 0 _, max_le (by linarith) (by linarith), ?_, ?_⟩
  · simp only [Enemy.takeDamage]
    cases isHeadshot <;> simp <;> linarith
  · intro hle
    simp only [Enemy.takeDamage] at hle ⊢
    simp [hle]

/-- C1 witness: player at 100 health taking 30 damage, rifle enemy taking a
25-damage body hit. -/
theorem c1_health_clamping_witness :
    0 ≤ playerTakeDamage 100 30 ∧ playerTakeDamage 100 30 ≤ 100 ∧
    ((mkEnemy .rifle ⟨0, 0, 0⟩).takeDamage 25 false).health ≤
      (mkEnemy .rifle ⟨0, 0, 0⟩).health ∧
    (((mkEnemy .rifle ⟨0, 0, 0⟩).takeDamage 25 false).health ≤ 0 →
      ((mkEnemy .rifle ⟨0, 0, 0⟩).takeDamage 25 false).isDying = true) :=
  c1_health_clamping 100 30 25 (mkEnemy .rifle ⟨0, 0, 0⟩) false (by norm_num)
    (by norm_num) (by norm_num)

/-- Wall used by the C2 counterexample: an axis-aligned building collider. -/
def c2Wall : Box3 := ⟨⟨1, 0, -5⟩, ⟨2, 3, 5⟩⟩

/-- C2 counterexample: a player movement request whose full displacement
collides, whose X-only component collides, and whose Z-only component is free
(a one-axis collision) resolves to zero horizontal displacement — the player
code never retries per axis, so the actor stops dead instead of sliding along
the unblocked Z axis. -/
theorem c2_counterexample :
    checkPlayerCollision ⟨0, 17/10, 0⟩ ⟨1, 0, 1⟩ [c2Wall] = true ∧
    checkPlayerCollision ⟨0, 17/10, 0⟩ ⟨1, 0, 0⟩ [c2Wall] = true ∧
    checkPlayerCollision ⟨0, 17/10, 0⟩ ⟨0, 0, 1⟩ [c2Wall] = false ∧
    playerResolveHorizontal ⟨0, 17/10, 0⟩ ⟨1, 0, 1⟩ [c2Wall] = (0, 0) := by
  norm_num [checkPlayerCollision, sphereIntersectsBox, distSq, Box3.clampPoint,
    c2Wall, playerResolveHorizontal, clampToBounds, worldBound, playerRadius,
    Vec3.add, List.any]

/-- C2 (amended): the axis-slide contract holds for enemies — when the full
displacement is blocked, a free X axis yields exactly the X component, and a
blocked X axis with a free Z axis yields exactly the Z component — but the
player's resolver applies no per-axis retry: whenever the full displacement
collides the player keeps its horizontal position (within world bounds)
unchanged, even if one axis is unblocked. -/
theorem c2_axis_slide (pos dir : Vec3) (moveSpeed delta : ℚ) (cols : List Box3)
    (ppos mv : Vec3) (pcols : List Box3)
    (hbx : |ppos.x| ≤ 140) (hbz : |ppos.z| ≤ 140)
    (hpcol : checkPlayerCollision ppos mv pcols = true) :
    (enemyTestBlocked ⟨pos.x + dir.x * moveSpeed * delta, pos.y + 1,
        pos.z + dir.z * moveSpeed * delta⟩ cols = true →
      (enemyTestBlocked ⟨pos.x + dir.x * moveSpeed * delta, pos.y + 1, pos.z⟩ cols = false →
        enemyMoveStep pos dir moveSpeed delta cols =
          (pos.x + dir.x * moveSpeed * delta, pos.z)) ∧
      (enemyTestBlocked ⟨pos.x + dir.x * moveSpeed * delta, pos.y + 1, pos.z⟩ cols = true →
        enemyTestBlocked ⟨pos.x, pos.y + 1, pos.z + dir.z * moveSpeed * delta⟩ cols = false →
        enemyMoveStep pos dir moveSpeed delta cols =
          (pos.x, pos.z + dir.z * moveSpeed * delta))) ∧
    playerResolveHorizontal ppos mv pcols = (ppos.x, ppos.z) := by
  constructor
  · intro hfull
    constructor
    · intro hxfree
      simp [enemyMoveStep, hfull, hxfree]
    · intro hxblocked hzfree
      simp [enemyMoveStep, hfull, hxblocked, hzfree]
  · rw [abs_le] at hbx hbz
    simp only [playerResolveHorizontal, hpcol, if_true, clampToBounds, worldBound,
      Prod.mk.injEq]
    constructor
    · rw [min_eq_right hbx.2, max_eq_right hbx.1]
    · rw [min_eq_right hbz.2, max_eq_right hbz.1]

/-- C2 witness: the wall scenario of the counterexample instantiates the
amended theorem. -/
theorem c2_axis_slide_witness :
    |(0 : ℚ)| ≤ 140 ∧
    checkPlayerCollision ⟨0, 17/10, 0⟩ ⟨1, 0, 1⟩ [c2Wall] = true ∧
    playerResolveHorizontal ⟨0, 17/10, 0⟩ ⟨1, 0, 1⟩ [c2Wall] = ((0 : ℚ), (0 : ℚ)) :=
  ⟨by norm_num,
   by
    norm_num [checkPlayerCollision, sphereIntersectsBox, distSq, Box3.clampPoint,
      c2Wall, playerRadius, Vec3.add, List.any],
   (c2_axis_slide ⟨0, 0, 0⟩ ⟨1, 0, 1⟩ 1 1 [] ⟨0, 17/10, 0⟩ ⟨1, 0, 1⟩ [c2Wall]
      (by norm_num) (by norm_num)
      (by
        norm_num [checkPlayerCollision, sphereIntersectsBox, distSq,
          Box3.clampPoint, c2Wall, playerRadius, Vec3.add, List.any])).2⟩

/-- C5 (confirmed): starting a reload leaves magazine and reserve untouched,
and completing a reload conserves `ammo + reserve` and fills the magazine to
`min(magazine size, ammo + reserve)`. -/
theorem c5_reload_conservation (w : MultiWeapon) :
    (w.reload.currentAmmo = w.currentAmmo ∧ w.reload.reserveAmmo = w.reserveAmmo) ∧
    w.finishReload.currentAmmo + w.finishReload.reserveAmmo =
      w.currentAmmo + w.reserveAmmo ∧
    w.finishReload.currentAmmo =
      Min.min (WEAPON_CONFIGS w.currentWeaponType).maxAmmo
        (w.currentAmmo + w.reserveAmmo) := by
  refine ⟨?_, ?_, ?_⟩
  · simp only [MultiWeapon.reload]
    split <;> simp
  · simp only [MultiWeapon.finishReload]
    ring
  · simp only [MultiWeapon.finishReload]
    omega

/-- C5 witness: a rifle reload with a partial reserve (10 rounds in the
magazine, 5 in reserve) completes at `min(30, 15) = 15` rounds and conserves
the total. -/
theorem c5_reload_conservation_witness :
    (({ mkMultiWeapon with currentAmmo := 10, reserveAmmo := 5 } :
        MultiWeapon).finishReload.currentAmmo +
      ({ mkMultiWeapon with currentAmmo := 10, reserveAmmo := 5 } :
        MultiWeapon).finishReload.reserveAmmo = 10 + 5) ∧
    ({ mkMultiWeapon with currentAmmo := 10, reserveAmmo := 5 } :
        MultiWeapon).finishReload.currentAmmo = 15 := by
  have h := c5_reload_conservation
    { mkMultiWeapon with currentAmmo := 10, reserveAmmo := 5 }
  exact ⟨h.2.1, by rw [h.2.2]; decide⟩

/-- C10 (confirmed): switching to a different weapon while not reloading
resets the new weapon's magazine to its full configured capacity and its
reserve to the configured default, regardless of any ammo previously spent. -/
theorem c10_switch_resupply (w : MultiWeapon) (t : WeaponType)
    (hne : w.currentWeaponType ≠ t) (hrel : w.isReloading = false) :
    (w.switchWeapon t).currentWeaponType = t ∧
    (w.switchWeapon t).currentAmmo = (WEAPON_CONFIGS t).maxAmmo ∧
    (w.switchWeapon t).reserveAmmo = (WEAPON_CONFIGS t).reserveAmmo := by
  unfold MultiWeapon.switchWeapon
  simp [hne, hrel]

/-- C10 witness: a fully spent rifle switched to the SMG comes back with the
SMG's full 40/160 loadout. -/
theorem c10_switch_resupply_witness :
    (({ mkMultiWeapon with currentAmmo := 0, reserveAmmo := 0 } :
        MultiWeapon).switchWeapon .smg).currentWeaponType = .smg ∧
    (({ mkMultiWeapon with currentAmmo := 0, reserveAmmo := 0 } :
        MultiWeapon).switchWeapon .smg).currentAmmo = 40 ∧
    (({ mkMultiWeapon with currentAmmo := 0, reserveAmmo := 0 } :
        MultiWeapon).switchWeapon .smg).reserveAmmo = 160 :=
  c10_switch_resupply { mkMultiWeapon with currentAmmo := 0, reserveAmmo := 0 }
    .smg (by decide) (by decide)

/-- A scripted rapid-fire request sequence: trigger held from t = 1000 ms,
requests every 50 ms (rate 20/s, exceeding the rifle's 10/s) over a window of
1000 ms. -/
def rapidFireScript : List ℚ :=
  [1000, 1050, 1100, 1150, 1200, 1250, 1300, 1350, 1400, 1450,
   1500, 1550, 1600, 1650, 1700, 1750, 1800, 1850, 1900, 1950]

/-- C4 (confirmed): a fire request arriving before `1000 / fireRate` ms have
elapsed since the last accepted shot leaves the weapon state unchanged (no
ammo decrement, no shot timestamp) and spawns no projectile; and the scripted
rapid-fire sequence over a 1-second window accepts exactly
`⌊elapsed · fireRate⌋ = 10` shots on the rifle. -/
theorem c4_fire_rate_gate (w : MultiWeapon) (now : ℚ)
    (hearly : now - w.lastShotTime <
      1000 / (WEAPON_CONFIGS w.currentWeaponType).fireRate) :
    w.shoot now = (w, 0) ∧
    ((runFireScript mkMultiWeapon rapidFireScript).2 : ℤ) =
      ⌊(1 : ℚ) * (WEAPON_CONFIGS WeaponType.rifle).fireRate⌋ := by
  constructor
  · have hc : w.canShoot now = false := by
      simp [MultiWeapon.canShoot, not_le.mpr hearly]
    simp [MultiWeapon.shoot, hc]
  · norm_num [runFireScript, rapidFireScript, List.foldl, MultiWeapon.shoot,
      MultiWeapon.canShoot, MultiWeapon.reload, mkMultiWeapon, WEAPON_CONFIGS]

/-- C4 witness: a request 50 ms after the weapon's creation (rifle cooldown
100 ms) is ignored. -/
theorem c4_fire_rate_gate_witness :
    mkMultiWeapon.shoot 50 = (mkMultiWeapon, 0) ∧
    ((runFireScript mkMultiWeapon rapidFireScript).2 : ℤ) =
      ⌊(1 : ℚ) * (WEAPON_CONFIGS WeaponType.rifle).fireRate⌋ :=
  c4_fire_rate_gate mkMultiWeapon 50
    (by norm_num [mkMultiWeapon, WEAPON_CONFIGS])

/-- The rifle enemy of spec scenario B after three 25-damage body hits. -/
def c6e3 : Enemy :=
  (((mkEnemy .rifle ⟨0, 0, 0⟩).takeDamage 25 false).takeDamage 25 false).takeDamage
    25 false

/-- C6 counterexample: the claim says a lethal projectile hit leaves the enemy
in the active set (DYING, not removed), but `Game.updateProjectiles` destroys
and splices the enemy out immediately: the 4th 25-damage hit on the scenario-B
enemy empties the active enemy list. -/
theorem c6_counterexample :
    c6e3.health = 5 ∧ applyProjectileHit [c6e3] 0 25 false = [] := by
  norm_num [c6e3, mkEnemy, ENEMY_CONFIGS, Enemy.takeDamage, applyProjectileHit,
    Enemy.isDead, List.eraseIdx]

/-- C6 (amended): the scenario-B health sequence is [80, 55, 30, 5] and any
4th hit of damage ≥ 5 drives health ≤ 0 and marks the enemy DYING, but the
projectile kill handler removes the enemy from the active set immediately
(the enemy does not linger in the DYING state). -/
theorem c6_lethal_hit (d : ℚ) (hd : 5 ≤ d) :
    (mkEnemy .rifle ⟨0, 0, 0⟩).health = 80 ∧
    ((mkEnemy .rifle ⟨0, 0, 0⟩).takeDamage 25 false).health = 55 ∧
    (((mkEnemy .rifle ⟨0, 0, 0⟩).takeDamage 25 false).takeDamage 25 false).health = 30 ∧
    c6e3.health = 5 ∧
    (c6e3.takeDamage d false).isDying = true ∧
    applyProjectileHit [c6e3] 0 d false = [] := by
  have h5 : c6e3.health = 5 := by
    norm_num [c6e3, mkEnemy, ENEMY_CONFIGS, Enemy.takeDamage]
  have hdy : c6e3.isDying = false := by
    norm_num [c6e3, mkEnemy, ENEMY_CONFIGS, Enemy.takeDamage]
  have hneg : c6e3.health - d ≤ 0 := by rw [h5]; linarith
  refine ⟨by norm_num [mkEnemy, ENEMY_CONFIGS],
    by norm_num [mkEnemy, ENEMY_CONFIGS, Enemy.takeDamage],
    by norm_num [mkEnemy, ENEMY_CONFIGS, Enemy.takeDamage], h5, ?_, ?_⟩
  · simp [Enemy.takeDamage, hdy, hneg]
  · simp [applyProjectileHit, Enemy.isDead, Enemy.takeDamage, hneg, List.eraseIdx]

/-- C6 witness: the 4th hit with the rifle projectile's 25 damage. -/
theorem c6_lethal_hit_witness :
    (c6e3.takeDamage 25 false).isDying = true ∧
    applyProjectileHit [c6e3] 0 25 false = [] :=
  ⟨(c6_lethal_hit 25 (by norm_num)).2.2.2.2.1,
   (c6_lethal_hit 25 (by norm_num)).2.2.2.2.2⟩

/-- The network puppet after receiving the scenario-D snapshots: position
(0, 0, 0) at t = 1000 ms and (1, 0, 0) at t = 1100 ms. -/
def c7np : NetworkPlayer :=
  (mkNetworkPlayer.setTargetState ⟨0, 0, 0⟩ 1000).setTargetState ⟨1, 0, 0⟩ 1100

/-- C7 (confirmed): two snapshots 100 ms apart with positions (0,0,0) and
(1,0,0) yield the derived velocity estimate (10, 0, 0) units/s, and the
predicted position computed for the render frame spanning the 50 ms after the
last snapshot (frame delta 0.05 s), before interpolation blending, is
(1.5, 0, 0). -/
theorem c7_dead_reckoning :
    c7np.velocity = ⟨10, 0, 0⟩ ∧
    c7np.predictedPosition (1/20) = ⟨3/2, 0, 0⟩ := by
  norm_num [c7np, mkNetworkPlayer, NetworkPlayer.setTargetState,
    NetworkPlayer.predictedPosition, Vec3.add, Vec3.sub, Vec3.smul]

/-- C8 (confirmed): if the candidate snapshot differs from the last sent state
by at most the position threshold 0.05 on every axis and the rotation
threshold 0.02, with equal health and shooting flag, then `sendState` sends no
message and leaves the manager state unchanged. -/
theorem c8_state_send_gate (m : MPManager) (state prev : PlayerState)
    (hprev : m.lastSentState = some prev)
    (hx : |state.x - m.lastX| ≤ 1/20) (hy : |state.y - m.lastY| ≤ 1/20)
    (hz : |state.z - m.lastZ| ≤ 1/20) (hr : |state.r - m.lastR| ≤ 1/50)
    (hh : state.h = prev.h) (hs : state.s = prev.s) :
    (sendState m state).1 = false ∧ (sendState m state).2 = m := by
  have hx20 : |state.x - m.lastX| ≤ (20 : ℚ)⁻¹ := by simpa [one_div] using hx
  have hy20 : |state.y - m.lastY| ≤ (20 : ℚ)⁻¹ := by simpa [one_div] using hy
  have hz20 : |state.z - m.lastZ| ≤ (20 : ℚ)⁻¹ := by simpa [one_div] using hz
  have hr50 : |state.r - m.lastR| ≤ (50 : ℚ)⁻¹ := by simpa [one_div] using hr
  have hchanged : hasStateChanged m state = false := by
    simp [hasStateChanged, hprev, hh, hs, hx20, hy20, hz20, hr50]
  cases hcon : m.isConnected <;> simp [sendState, hchanged, hcon]

/-- C8 witness: a snapshot within all thresholds of the last sent state
(position and yaw offset by 0.01, same health and shooting flag). -/
theorem c8_state_send_gate_witness :
    (sendState
      { isConnected := true, lastSentState := some ⟨0, 0, 0, 0, 100, 0⟩,
        lastX := 0, lastY := 0, lastZ := 0, lastR := 0 }
      ⟨1/100, 0, 0, 1/100, 100, 0⟩).1 = false ∧
    (sendState
      { isConnected := true, lastSentState := some ⟨0, 0, 0, 0, 100, 0⟩,
        lastX := 0, lastY := 0, lastZ := 0, lastR := 0 }
      ⟨1/100, 0, 0, 1/100, 100, 0⟩).2 =
      { isConnected := true, lastSentState := some ⟨0, 0, 0, 0, 100, 0⟩,
        lastX := 0, lastY := 0, lastZ := 0, lastR := 0 } :=
  c8_state_send_gate _ _ ⟨0, 0, 0, 0, 100, 0⟩ rfl
    (by rw [abs_le]; constructor <;> norm_num)
    (by rw [abs_le]; constructor <;> norm_num)
    (by rw [abs_le]; constructor <;> norm_num)
    (by rw [abs_le]; constructor <;> norm_num) rfl rfl

/-- Every boss bookkeeping step preserves the invariant "never more than one
live boss, and none at all while the boss-alive flag is clear". -/
lemma bossStep_invariant {g g' : BossGame} (hs : BossStep g g')
    (ih : g.bossCount ≤ 1 ∧ (g.bossSpawned = false → g.bossCount = 0)) :
    g'.bossCount ≤ 1 ∧ (g'.bossSpawned = false → g'.bossCount = 0) := by
  obtain ⟨ih1, ih2⟩ := ih
  cases hs with
  | killRegular h =>
    exact ⟨by simpa [killRegularUpd] using ih1, by simpa [killRegularUpd] using ih2⟩
  | killBoss h =>
    simp only [killBossUpd]
    exact ⟨by omega, fun _ => by omega⟩
  | respawnFire h =>
    by_cases hcond : 0 < g.kills ∧ g.kills % 10 = 0 ∧ g.bossSpawned = false
    · simp only [respawnUpd, hcond, if_true, spawnBoss, hcond.2.2]
      simp [ih2 hcond.2.2]
    · simp only [respawnUpd, hcond, if_false]
      exact ⟨by simpa using ih1, by simpa using ih2⟩

/-- Inductive invariant of the boss bookkeeping over all reachable states. -/
lemma bossReachable_invariant {g : BossGame} (hg : BossReachable g) :
    g.bossCount ≤ 1 ∧ (g.bossSpawned = false → g.bossCount = 0) := by
  induction hg with
  | init => simp [initBossGame]
  | step hg hs ih => exact bossStep_invariant hs ih

/-- C9 (confirmed): in every reachable game state at most one boss is alive;
the respawn callback spawns a boss exactly when the kill counter is a positive
multiple of 10 while no boss is alive; and a projectile boss kill clears the
boss-alive flag and advances the wave counter. -/
theorem c9_boss_singleton (g : BossGame) (hg : BossReachable g) :
    g.bossCount ≤ 1 ∧
    ((respawnUpd g).bossCount = g.bossCount + 1 ↔
      0 < g.kills ∧ g.kills % 10 = 0 ∧ g.bossSpawned = false) ∧
    (killBossUpd g).bossSpawned = false ∧
    (killBossUpd g).waveNumber = g.waveNumber + 1 := by
  refine ⟨(bossReachable_invariant hg).1, ?_, by simp [killBossUpd],
    by simp [killBossUpd]⟩
  by_cases hcond : 0 < g.kills ∧ g.kills % 10 = 0 ∧ g.bossSpawned = false
  · simp only [respawnUpd, hcond, if_true, spawnBoss, hcond.2.2]
    simp [hcond, hcond.2.2]
  · simp only [respawnUpd, hcond, if_false]
    simp [hcond]

/-- C9 witness: the initial game state is reachable and satisfies the
conjunction. -/
theorem c9_boss_singleton_witness :
    initBossGame.bossCount ≤ 1 ∧
    ((respawnUpd initBossGame).bossCount = initBossGame.bossCount + 1 ↔
      0 < initBossGame.kills ∧ initBossGame.kills % 10 = 0 ∧
      initBossGame.bossSpawned = false) ∧
    (killBossUpd initBossGame).bossSpawned = false ∧
    (killBossUpd initBossGame).waveNumber = initBossGame.waveNumber + 1 :=
  c9_boss_singleton initBossGame BossReachable.init

/-- Evaluated local mesh hull of the chibi mesh (rifle tier). -/
lemma localMeshBBox_rifle :
    localMeshBBox .rifle =
      ⟨⟨-159/200, -1/25, -9/20⟩, ⟨159/200, 123/50, 17/20⟩⟩ := by
  norm_num [localMeshBBox, enemyParts, chibiParts, Box3.unionBox, List.foldl,
    min_def, max_def, Box3.mk.injEq, Vec3.mk.injEq]

/-- Evaluated local mesh hull of the chibi mesh (smg tier). -/
lemma localMeshBBox_smg :
    localMeshBBox .smg =
      ⟨⟨-159/200, -1/25, -9/20⟩, ⟨159/200, 123/50, 17/20⟩⟩ := by
  norm_num [localMeshBBox, enemyParts, chibiParts, Box3.unionBox, List.foldl,
    min_def, max_def, Box3.mk.injEq, Vec3.mk.injEq]

/-- Evaluated local mesh hull of the chibi mesh (heavy tier). -/
lemma localMeshBBox_heavy :
    localMeshBBox .heavy =
      ⟨⟨-159/200, -1/25, -9/20⟩, ⟨159/200, 123/50, 17/20⟩⟩ := by
  norm_num [localMeshBBox, enemyParts, chibiParts, Box3.unionBox, List.foldl,
    min_def, max_def, Box3.mk.injEq, Vec3.mk.injEq]

/-- Evaluated local mesh hull of the boss mesh. -/
lemma localMeshBBox_boss :
    localMeshBBox .boss = ⟨⟨-1, -2/25, -3/10⟩, ⟨1, 143/40, 1⟩⟩ := by
  norm_num [localMeshBBox, enemyParts, bossParts, Box3.unionBox, List.foldl,
    min_def, max_def, Box3.mk.injEq, Vec3.mk.injEq]

/-- C3 (confirmed): a projectile within the fixed 0.4 headshot threshold of an
enemy's head anchor always passes the body-hit test (the mesh bounding box
contains the head geometry, whose smallest scaled half-extent 0.405 exceeds
the threshold), so the hit registers, is classified as a headshot, and applies
double the base damage; the hit decision itself never depends on the headshot
classification, and the headshot test is strictly narrower than the hit test
(the torso centre registers a hit but no headshot). -/
theorem c3_headshot_subset (e : Enemy) (p q : Vec3) (damage : ℚ)
    (hclose : distSq p e.getHeadPosition < (2/5) * (2/5)) :
    checkProjectileHit p e = true ∧
    resolveHit p damage e = some (e.takeDamage damage true, true) ∧
    (e.takeDamage damage true).health = e.health - damage * 2 ∧
    (resolveHit q damage e).isSome = checkProjectileHit q e ∧
    checkProjectileHit e.torsoCenter e = true ∧
    isHeadshotAt e.torsoCenter e = false := by
  have hhs : isHeadshotAt p e = true := by
    simp only [isHeadshotAt, decide_eq_true_eq]
    exact hclose
  obtain ⟨⟨hx1, hx2⟩, ⟨hy1, hy2⟩, ⟨hz1, hz2⟩⟩ :=
    distSq_component_bounds (by norm_num : (0:ℚ) < 2/5) hclose
  have hhit : checkProjectileHit p e = true := by
    obtain ⟨t, pos, eh, emh, ehit, eht, edy⟩ := e
    cases t with
    | rifle =>
      simp only [Enemy.getHeadPosition, ENEMY_CONFIGS, headLocalY, Vec3.add]
        at hx1 hx2 hy1 hy2 hz1 hz2
      simp only [checkProjectileHit, Enemy.getBoundingBox, ENEMY_CONFIGS,
        localMeshBBox_rifle, Box3.scaleBox, Box3.translateBox,
        Box3.expandByScalar, Box3.containsPoint, Vec3.add, Bool.and_eq_true,
        decide_eq_true_eq]
      norm_num at hx1 hx2 hy1 hy2 hz1 hz2 ⊢
      and_intros <;> linarith
    | smg =>
      simp only [Enemy.getHeadPosition, ENEMY_CONFIGS, headLocalY, Vec3.add]
        at hx1 hx2 hy1 hy2 hz1 hz2
      simp only [checkProjectileHit, Enemy.getBoundingBox, ENEMY_CONFIGS,
        localMeshBBox_smg, Box3.scaleBox, Box3.translateBox,
        Box3.expandByScalar, Box3.containsPoint, Vec3.add, Bool.and_eq_true,
        decide_eq_true_eq]
      norm_num at hx1 hx2 hy1 hy2 hz1 hz2 ⊢
      and_intros <;> linarith
    | heavy =>
      simp only [Enemy.getHeadPosition, ENEMY_CONFIGS, headLocalY, Vec3.add]
        at hx1 hx2 hy1 hy2 hz1 hz2
      simp only [checkProjectileHit, Enemy.getBoundingBox, ENEMY_CONFIGS,
        localMeshBBox_heavy, Box3.scaleBox, Box3.translateBox,
        Box3.expandByScalar, Box3.containsPoint, Vec3.add, Bool.and_eq_true,
        decide_eq_true_eq]
      norm_num at hx1 hx2 hy1 hy2 hz1 hz2 ⊢
      and_intros <;> linarith
    | boss =>
      simp only [Enemy.getHeadPosition, ENEMY_CONFIGS, headLocalY, Vec3.add]
        at hx1 hx2 hy1 hy2 hz1 hz2
      simp only [checkProjectileHit, Enemy.getBoundingBox, ENEMY_CONFIGS,
        localMeshBBox_boss, Box3.scaleBox, Box3.translateBox,
        Box3.expandByScalar, Box3.containsPoint, Vec3.add, Bool.and_eq_true,
        decide_eq_true_eq]
      norm_num at hx1 hx2 hy1 hy2 hz1 hz2 ⊢
      and_intros <;> linarith
  have htorso : checkProjectileHit e.torsoCenter e = true := by
    obtain ⟨t, pos, eh, emh, ehit, eht, edy⟩ := e
    cases t with
    | rifle =>
      simp only [checkProjectileHit, Enemy.getBoundingBox, Enemy.torsoCenter,
        ENEMY_CONFIGS, torsoLocalY, localMeshBBox_rifle, Box3.scaleBox,
        Box3.translateBox, Box3.expandByScalar, Box3.containsPoint, Vec3.add,
        Bool.and_eq_true, decide_eq_true_eq]
      and_intros <;> linarith
    | smg =>
      simp only [checkProjectileHit, Enemy.getBoundingBox, Enemy.torsoCenter,
        ENEMY_CONFIGS, torsoLocalY, localMeshBBox_smg, Box3.scaleBox,
        Box3.translateBox, Box3.expandByScalar, Box3.containsPoint, Vec3.add,
        Bool.and_eq_true, decide_eq_true_eq]
      and_intros <;> linarith
    | heavy =>
      simp only [checkProjectileHit, Enemy.getBoundingBox, Enemy.torsoCenter,
        ENEMY_CONFIGS, torsoLocalY, localMeshBBox_heavy, Box3.scaleBox,
        Box3.translateBox, Box3.expandByScalar, Box3.containsPoint, Vec3.add,
        Bool.and_eq_true, decide_eq_true_eq]
      and_intros <;> linarith
    | boss =>
      simp only [checkProjectileHit, Enemy.getBoundingBox, Enemy.torsoCenter,
        ENEMY_CONFIGS, torsoLocalY, localMeshBBox_boss, Box3.scaleBox,
        Box3.translateBox, Box3.expandByScalar, Box3.containsPoint, Vec3.add,
        Bool.and_eq_true, decide_eq_true_eq]
      and_intros <;> linarith
  have hnohs : isHeadshotAt e.torsoCenter e = false := by
    obtain ⟨t, pos, eh, emh, ehit, eht, edy⟩ := e
    cases t <;>
      (simp only [isHeadshotAt, Enemy.torsoCenter, Enemy.getHeadPosition,
        distSq, Vec3.add, ENEMY_CONFIGS, torsoLocalY, headLocalY,
        decide_eq_false_iff_not, not_lt]
       ring_nf
       norm_num)
  refine ⟨hhit, ?_, by simp [Enemy.takeDamage], ?_, htorso, hnohs⟩
  · simp only [resolveHit, hhs, hhit, if_true]
  · cases hq : checkProjectileHit q e <;> simp [resolveHit, hq]

/-- C3 witness: a projectile 0.2 under the rifle enemy's head anchor is a
registered headshot hit with doubled damage; the far-away point (5,5,5) shows
the hit decision agrees with the body-hit test. -/
theorem c3_headshot_subset_witness :
    checkProjectileHit ⟨0, 17/10, 1/5⟩ (mkEnemy .rifle ⟨0, 0, 0⟩) = true ∧
    resolveHit ⟨0, 17/10, 1/5⟩ 25 (mkEnemy .rifle ⟨0, 0, 0⟩) =
      some ((mkEnemy .rifle ⟨0, 0, 0⟩).takeDamage 25 true, true) ∧
    ((mkEnemy .rifle ⟨0, 0, 0⟩).takeDamage 25 true).health =
      (mkEnemy .rifle ⟨0, 0, 0⟩).health - 25 * 2 ∧
    (resolveHit ⟨5, 5, 5⟩ 25 (mkEnemy .rifle ⟨0, 0, 0⟩)).isSome =
      checkProjectileHit ⟨5, 5, 5⟩ (mkEnemy .rifle ⟨0, 0, 0⟩) ∧
    checkProjectileHit (mkEnemy .rifle ⟨0, 0, 0⟩).torsoCenter
      (mkEnemy .rifle ⟨0, 0, 0⟩) = true ∧
    isHeadshotAt (mkEnemy .rifle ⟨0, 0, 0⟩).torsoCenter
      (mkEnemy .rifle ⟨0, 0, 0⟩) = false :=
  c3_headshot_subset (mkEnemy .rifle ⟨0, 0, 0⟩) ⟨0, 17/10, 1/5⟩ ⟨5, 5, 5⟩ 25
    (by norm_num [mkEnemy, ENEMY_CONFIGS, Enemy.getHeadPosition, headLocalY,
      distSq, Vec3.add])

end FPS
